import Mathlib

/-!
Shallow embedding of the OpenUp LangGraph PoC orchestration core:

* `src/types/schemas.ts` — zod payload schemas (`PayloadSchemas`, `ToolResultSchema`)
* `src/types/helpers.ts` — `parseToolResult`, `extractStateUpdates`, `validatePayload`
* `src/graph/state.ts` — graph state and its per-field reducers
* `src/graph/nodes/orchestrator.ts` — inline emergency check and `orchestratorNode`
* `src/graph/nodes/tools.ts` — `toolExecutorNode`
* `src/graph/index.ts` — `routeAfterOrchestrator`, `routeAfterTools`
* `src/services/emergency.ts` — `checkEmergency` used by the circuit breaker
* `src/services/circuitBreaker.ts` — `withEmergencyCircuitBreaker`

JavaScript values flowing through validation are modelled by an inductive
`Json` type; the platform builtin `JSON.parse` is taken as a parameter
(`String → Option Json`, `none` standing for a thrown parse error).
Asynchronous settlement is modelled by explicit settle times in
milliseconds; `Promise.race` picks the earliest settler, with ties going to
the earlier entry in the race array.
-/

namespace OpenUp

/-- Model of a JavaScript value after `JSON.parse`: numbers are collapsed to
`Int` since every schema check only inspects whether a value is a number. -/
inductive Json where
  | null
  | bool (b : Bool)
  | num (n : Int)
  | str (s : String)
  | arr (items : List Json)
  | obj (fields : List (String × Json))

mutual

/-- Structural equality on `Json` values (the semantics of `===` on the
primitive cases and of deep equality where the code compares structures). -/
def Json.beq : Json → Json → Bool
  | .null, .null => true
  | .bool a, .bool b => a == b
  | .num a, .num b => a == b
  | .str a, .str b => a == b
  | .arr xs, .arr ys => Json.beqList xs ys
  | .obj xs, .obj ys => Json.beqFields xs ys
  | _, _ => false

/-- Elementwise `Json.beq` on arrays. -/
def Json.beqList : List Json → List Json → Bool
  | [], [] => true
  | x :: xs, y :: ys => Json.beq x y && Json.beqList xs ys
  | _, _ => false

/-- Elementwise `Json.beq` on object field lists. -/
def Json.beqFields : List (String × Json) → List (String × Json) → Bool
  | [], [] => true
  | (k1, v1) :: xs, (k2, v2) :: ys =>
      k1 == k2 && Json.beq v1 v2 && Json.beqFields xs ys
  | _, _ => false

end

instance : BEq Json := ⟨Json.beq⟩

/-- Field lookup on an object (`undefined`, i.e. an absent key, is `none`);
on any non-object value property access used by the code yields `none`. -/
def jsonGet : Json → String → Option Json
  | .obj fields, k => (fields.find? (fun f => f.1 == k)).map (fun f => f.2)
  | _, _ => none

/-- JavaScript truthiness, used for checks such as `state.responsePayload &&`. -/
def jsTruthy : Json → Bool
  | .null => false
  | .bool b => b
  | .num n => n != 0
  | .str s => s != ""
  | .arr _ => true
  | .obj _ => true

/-- The check `z.string()` performs. -/
def isStr : Json → Bool
  | .str _ => true
  | _ => false

/-- The check `z.number()` performs. -/
def isNum : Json → Bool
  | .num _ => true
  | _ => false

/-- The check `z.boolean()` performs. -/
def isBool : Json → Bool
  | .bool _ => true
  | _ => false

/-- The top-level check `z.object(...)` performs before looking at fields:
the value must be a plain object. -/
def isObj : Json → Bool
  | .obj _ => true
  | _ => false

/-- The check `z.enum([...])` performs: a string among the listed values. -/
def strEnum (vals : List String) : Json → Bool
  | .str s => vals.contains s
  | _ => false

/-- The check `z.array(elem)` performs. -/
def isArrOf (elem : Json → Bool) : Json → Bool
  | .arr xs => xs.all elem
  | _ => false

/-- A required zod object field: absent (`undefined`) fails, present must match. -/
def reqField (j : Json) (k : String) (check : Json → Bool) : Bool :=
  match jsonGet j k with
  | some v => check v
  | none => false

/-- An `.optional()` zod object field: absent passes, present must match
(note `null` is not `undefined`, so an explicit `null` still fails e.g.
`z.string().optional()`). -/
def optField (j : Json) (k : String) (check : Json → Bool) : Bool :=
  match jsonGet j k with
  | some v => check v
  | none => true

/-- The closed `MessageType` union from `src/types/index.ts`. -/
inductive MessageType where
  | text
  | emergency
  | expert_profiles
  | expert_availability
  | session_booked
  | content_recommendations
deriving DecidableEq

/-- Decoding of the `z.enum` tag strings in `ToolResultSchema` back into
`MessageType`. -/
def messageTypeOfString (s : String) : Option MessageType :=
  if s == "text" then some .text
  else if s == "emergency" then some .emergency
  else if s == "expert_profiles" then some .expert_profiles
  else if s == "expert_availability" then some .expert_availability
  else if s == "session_booked" then some .session_booked
  else if s == "content_recommendations" then some .content_recommendations
  else none

/-- `CrisisResourceSchema` from `src/types/schemas.ts`. -/
def crisisResourceCheck (j : Json) : Bool :=
  isObj j
    && reqField j "name" isStr
    && reqField j "number" isStr
    && reqField j "label" isStr
    && optField j "country" isStr

/-- `ExpertSchema` from `src/types/schemas.ts`. -/
def expertCheck (j : Json) : Bool :=
  isObj j
    && reqField j "id" isStr
    && reqField j "name" isStr
    && reqField j "title" isStr
    && reqField j "specializations" (isArrOf isStr)
    && reqField j "languages" (isArrOf isStr)
    && optField j "imageUrl" isStr
    && optField j "rating" isNum
    && optField j "bio" isStr

/-- `TimeSlotSchema` from `src/types/schemas.ts`. -/
def timeSlotCheck (j : Json) : Bool :=
  isObj j
    && reqField j "id" isStr
    && reqField j "expertId" isStr
    && reqField j "startTime" isStr
    && reqField j "endTime" isStr
    && reqField j "available" isBool

/-- `ContentItemSchema` from `src/types/schemas.ts`. -/
def contentItemCheck (j : Json) : Bool :=
  isObj j
    && reqField j "id" isStr
    && reqField j "title" isStr
    && optField j "description" isStr
    && reqField j "type" (strEnum ["articles", "videos"])
    && reqField j "topic" isStr
    && optField j "duration" isStr
    && optField j "thumbnailUrl" isStr
    && reqField j "url" isStr
    && reqField j "language" isStr

/-- `SessionTypeSchema` from `src/types/schemas.ts`. -/
def sessionTypeCheck (j : Json) : Bool :=
  strEnum ["general", "physical-wellbeing"] j

/-- `BookedSessionSchema` from `src/types/schemas.ts`. -/
def bookedSessionCheck (j : Json) : Bool :=
  isObj j
    && reqField j "sessionId" isStr
    && reqField j "expert" expertCheck
    && reqField j "slot" timeSlotCheck
    && reqField j "sessionType" sessionTypeCheck
    && optField j "meetingUrl" isStr
    && optField j "calendarLink" isStr

/-- `EmergencyPayloadSchema` from `src/types/schemas.ts`. -/
def emergencyPayloadCheck (j : Json) : Bool :=
  isObj j
    && reqField j "severity" (strEnum ["high", "medium"])
    && reqField j "resources" (isArrOf crisisResourceCheck)
    && optField j "safetyQuestion" isStr

/-- `ExpertProfilesPayloadSchema` from `src/types/schemas.ts`. -/
def expertProfilesPayloadCheck (j : Json) : Bool :=
  isObj j
    && reqField j "experts" (isArrOf expertCheck)
    && optField j "searchCriteria" (fun c =>
         isObj c
           && reqField c "sessionType" sessionTypeCheck
           && optField c "topic" isStr)

/-- `ExpertAvailabilityPayloadSchema` from `src/types/schemas.ts`. -/
def expertAvailabilityPayloadCheck (j : Json) : Bool :=
  isObj j
    && reqField j "expert" expertCheck
    && reqField j "slots" (isArrOf timeSlotCheck)
    && reqField j "timezone" isStr

/-- `SessionBookedPayloadSchema` from `src/types/schemas.ts`. -/
def sessionBookedPayloadCheck (j : Json) : Bool :=
  isObj j
    && reqField j "session" bookedSessionCheck
    && reqField j "confirmationMessage" isStr

/-- `ContentRecommendationsPayloadSchema` from `src/types/schemas.ts`. -/
def contentRecommendationsPayloadCheck (j : Json) : Bool :=
  isObj j
    && reqField j "items" (isArrOf contentItemCheck)
    && reqField j "topic" isStr
    && optField j "totalCount" isNum

/-- The `PayloadSchemas` registry from `src/types/schemas.ts`: a total map
from every `MessageType` to its payload validator (`text` maps to
`z.null()`). -/
def PayloadSchemas : MessageType → Json → Bool
  | .text => fun j => j == .null
  | .emergency => emergencyPayloadCheck
  | .expert_profiles => expertProfilesPayloadCheck
  | .expert_availability => expertAvailabilityPayloadCheck
  | .session_booked => sessionBookedPayloadCheck
  | .content_recommendations => contentRecommendationsPayloadCheck

/-- `validatePayload` from `src/types/helpers.ts`, modelled by its `success`
flag (the accompanying `error` string is formatted zod diagnostics). -/
def validatePayload (messageType : MessageType) (payload : Json) : Bool :=
  PayloadSchemas messageType payload

/-- The required (non-`.optional()`) top-level keys of each registered
payload schema in `src/types/schemas.ts`; `text` is `z.null()` and has no
keys. -/
def requiredTopLevelFields : MessageType → List String
  | .text => []
  | .emergency => ["severity", "resources"]
  | .expert_profiles => ["experts"]
  | .expert_availability => ["expert", "slots", "timezone"]
  | .session_booked => ["session", "confirmationMessage"]
  | .content_recommendations => ["items", "topic"]

/-! ## Messages and graph state (`src/graph/state.ts`, `src/graph/utils.ts`) -/

/-- The tag `getMessageType` computes for a message (the source returns the
strings "human" | "ai" | "system" | "tool"; the duck-typing fallbacks all
recover this same tag). -/
inductive MsgType where
  | human
  | ai
  | system
  | tool
deriving DecidableEq

/-- A tool call carried by an AI message; `args` is the serialized argument
object handed to `tool.invoke`. -/
structure ToolCall where
  id : String
  name : String
  args : String
deriving DecidableEq

/-- A LangChain message as the graph code observes it: its type tag, its
string content, its tool calls (AI messages), and its `tool_call_id`
(tool messages). -/
structure Msg where
  type : MsgType
  content : String
  tool_calls : List ToolCall := []
  tool_call_id : Option String := none
deriving DecidableEq

/-- `getMessageType` from `src/graph/utils.ts`, collapsed onto the tag. -/
def getMessageType (m : Msg) : MsgType := m.type

/-- The graph state from `src/graph/state.ts`, restricted to the fields the
orchestration logic reads or writes. JS `null` is `Option.none` for string
fields and `Json.null` for payload-typed fields. Omitted fields (intent,
sessionType, conversationId, contentLanguage, contentType,
conversationSummary, agentCompleted, followupQuestion) use the same
replace-reducer and are untouched by the modelled nodes. -/
structure GraphState where
  messages : List Msg := []
  conversationLanguage : String := "en-GB"
  isEmergency : Bool := false
  selectedExpertId : Json := .null
  selectedSlotId : Json := .null
  contentTopic : Json := .null
  experts : Json := .arr []
  timeSlots : Json := .arr []
  contentItems : Json := .arr []
  responseMessage : Option String := none
  responseMessageType : MessageType := .text
  responsePayload : Json := .null
  error : Option String := none

/-- A partial state update as returned by a node: `none` marks a field the
update does not mention; `messages` lists the messages to append. -/
structure StateUpdate where
  messages : List Msg := []
  isEmergency : Option Bool := none
  selectedExpertId : Option Json := none
  selectedSlotId : Option Json := none
  contentTopic : Option Json := none
  experts : Option Json := none
  timeSlots : Option Json := none
  contentItems : Option Json := none
  responseMessage : Option String := none
  responseMessageType : Option MessageType := none
  responsePayload : Option Json := none
  error : Option String := none

/-- The reducers from `src/graph/state.ts`: `messages` appends
(`[...current, ...update]`), every other field replaces its value when the
update mentions it. -/
def applyUpdate (s : GraphState) (u : StateUpdate) : GraphState :=
  { messages := s.messages ++ u.messages
    conversationLanguage := s.conversationLanguage
    isEmergency := u.isEmergency.getD s.isEmergency
    selectedExpertId := u.selectedExpertId.getD s.selectedExpertId
    selectedSlotId := u.selectedSlotId.getD s.selectedSlotId
    contentTopic := u.contentTopic.getD s.contentTopic
    experts := u.experts.getD s.experts
    timeSlots := u.timeSlots.getD s.timeSlots
    contentItems := u.contentItems.getD s.contentItems
    responseMessage := u.responseMessage.or s.responseMessage
    responseMessageType := u.responseMessageType.getD s.responseMessageType
    responsePayload := u.responsePayload.getD s.responsePayload
    error := u.error.or s.error }

/-! ## Tool-result parsing (`src/types/schemas.ts`, `src/types/helpers.ts`) -/

/-- `ToolResultSchema` from `src/types/schemas.ts`: `messageType` must be one
of the enum tags, `textContent` a string; `payload` is `z.any()` and passes
this first, structural check unconditionally. -/
def toolResultStructCheck (j : Json) : Bool :=
  isObj j
    && reqField j "messageType" (strEnum
        ["text", "emergency", "expert_profiles", "expert_availability",
         "session_booked", "content_recommendations"])
    && reqField j "textContent" isStr

/-- The `ToolResult` record of `src/types/index.ts` after validation. -/
structure ToolResult where
  messageType : MessageType
  payload : Json
  textContent : String

/-- `parseToolResult` from `src/types/helpers.ts`. `jsonParse` is the
platform builtin `JSON.parse` (`none` models a thrown parse error, caught
by the surrounding try). After the structural check the payload is
validated against `PayloadSchemas[messageType]`; a `payload` key that is
absent is `undefined`, which every registered payload schema rejects. -/
def parseToolResult (jsonParse : String → Option Json) (jsonString : String) :
    Option ToolResult :=
  match jsonParse jsonString with
  | none => none
  | some parsed =>
    if toolResultStructCheck parsed then
      match jsonGet parsed "messageType", jsonGet parsed "textContent" with
      | some (.str tag), some (.str textContent) =>
        match messageTypeOfString tag with
        | some messageType =>
          match jsonGet parsed "payload" with
          | some payload =>
              if PayloadSchemas messageType payload then
                some { messageType := messageType, payload := payload,
                       textContent := textContent }
              else none
          | none => none
        | none => none
      | _, _ => none
    else none

/-- `extractStateUpdates` from `src/types/helpers.ts`: the base update sets
the three response fields from the validated result, then the
`messageType`-specific cases project extra cached fields out of the
payload. -/
def extractStateUpdates (result : ToolResult) : StateUpdate :=
  let updates : StateUpdate :=
    { responseMessageType := some result.messageType
      responsePayload := some result.payload
      responseMessage := some result.textContent }
  match result.messageType with
  | .expert_profiles =>
      if jsTruthy result.payload && (jsonGet result.payload "experts").isSome then
        { updates with experts := jsonGet result.payload "experts" }
      else updates
  | .expert_availability =>
      if jsTruthy result.payload && (jsonGet result.payload "slots").isSome then
        { updates with timeSlots := jsonGet result.payload "slots" }
      else updates
  | .content_recommendations =>
      if jsTruthy result.payload && (jsonGet result.payload "items").isSome then
        let u2 := { updates with contentItems := jsonGet result.payload "items" }
        if (jsonGet result.payload "topic").isSome then
          { u2 with contentTopic := jsonGet result.payload "topic" }
        else u2
      else updates
  | .session_booked =>
      if jsTruthy result.payload && (jsonGet result.payload "session").isSome then
        let session := (jsonGet result.payload "session").getD .null
        { updates with
          selectedExpertId :=
            some ((jsonGet ((jsonGet session "expert").getD .null) "id").getD .null)
          selectedSlotId :=
            some ((jsonGet ((jsonGet session "slot").getD .null) "id").getD .null) }
      else updates
  | .emergency => { updates with isEmergency := some true }
  | .text => updates

/-! ## Emergency constants (`src/constants/emergency.ts`) -/

/-- `EMERGENCY_MESSAGE` from `src/constants/emergency.ts`. -/
def EMERGENCY_MESSAGE : String :=
  "I\x27m concerned about what you\x27re sharing. Your safety matters most right now.\n\nIf you\x27re in immediate danger, please reach out to one of these crisis lines. They\x27re available 24/7 and can provide immediate support.\n\nAre you safe right now?"

/-- `CRISIS_RESOURCES` from `src/constants/emergency.ts`, as the JSON value
it serializes to. -/
def CRISIS_RESOURCES : Json :=
  .obj
    [("severity", .str "high"),
     ("resources", .arr
       [.obj [("name", .str "Netherlands"), ("number", .str "113"),
              ("label", .str "Zelfmoordpreventie"), ("country", .str "NL")],
        .obj [("name", .str "Belgium"), ("number", .str "1813"),
              ("label", .str "Zelfmoordlijn"), ("country", .str "BE")],
        .obj [("name", .str "UK"), ("number", .str "116 123"),
              ("label", .str "Samaritans"), ("country", .str "GB")],
        .obj [("name", .str "International"), ("number", .str "112"),
              ("label", .str "Emergency Services")]]),
     ("safetyQuestion", .str "Are you safe right now?")]

/-! ## Orchestrator node (`src/graph/nodes/orchestrator.ts`) -/

namespace OrchestratorNode

/-- Possible outcomes of the inline classifier call in
`src/graph/nodes/orchestrator.ts`: the model call (or `JSON.parse`) throws,
the reply contains no `{..."isEmergency"...}` JSON fragment, or it parses
to an object whose `isEmergency` field is the given value (`none` when
absent). -/
inductive ClassifierOutcome where
  | throws
  | noJson
  | json (isEmergencyField : Option Json)

/-- The inline `checkEmergency` of `src/graph/nodes/orchestrator.ts`: both
the no-JSON case and a thrown error fail CLOSED (emergency assumed); a
parsed reply is an emergency exactly when `isEmergency === true`. -/
def checkEmergency : ClassifierOutcome → Bool
  | .throws => true
  | .noJson => true
  | .json f => f == some (Json.bool true)

/-- External collaborators of `orchestratorNode`: the inline classifier
outcome and the main model call (`.error` models a throw, caught by the
node). -/
structure Env where
  classifierOutcome : ClassifierOutcome
  modelResponse : Except String Msg

end OrchestratorNode

/-- Step 2 of `orchestratorNode` (normal conversation flow): tool calls are
passed through as a message-only update; a direct answer sets the response
fields, preserving a structured payload when the previous message is a tool
result and `state.responsePayload` is truthy; a thrown model call is caught
and substituted by the fixed fallback text. -/
def orchestratorStep2 (env : OrchestratorNode.Env) (state : GraphState) :
    StateUpdate :=
  match env.modelResponse with
  | .error e =>
      { responseMessage :=
          some "I\x27m here to support your wellbeing. What\x27s on your mind?"
        responseMessageType := some .text
        responsePayload := some .null
        error := some e }
  | .ok response =>
      if response.type = .ai ∧ response.tool_calls ≠ [] then
        { messages := [response] }
      else
        let responseText := response.content
        let hasToolResultsThisTurn :=
          (match state.messages.getLast? with
           | some m => m.type == .tool
           | none => false)
          && jsTruthy state.responsePayload
        let messageType :=
          if hasToolResultsThisTurn then state.responseMessageType else .text
        let payload :=
          if hasToolResultsThisTurn then state.responsePayload else .null
        { messages := [response]
          responseMessage := some responseText
          responseMessageType := some messageType
          responsePayload := some payload }

/-- `orchestratorNode` from `src/graph/nodes/orchestrator.ts`. The emergency
check runs only when the last message is a human message with non-empty
content (`messageType === 'human' && userMessage`); a positive verdict
returns the fixed emergency update, otherwise step 2 runs. -/
def orchestratorNode (env : OrchestratorNode.Env) (state : GraphState) :
    StateUpdate :=
  let userMessage :=
    match state.messages.getLast? with
    | some m => if m.type = .human then m.content else ""
    | none => ""
  if userMessage ≠ "" ∧ OrchestratorNode.checkEmergency env.classifierOutcome then
    { messages := [{ type := .ai, content := EMERGENCY_MESSAGE }]
      isEmergency := some true
      responseMessage := some EMERGENCY_MESSAGE
      responseMessageType := some .emergency
      responsePayload := some CRISIS_RESOURCES }
  else
    orchestratorStep2 env state

/-! ## Routing (`src/graph/index.ts`) -/

/-- Target of a conditional edge; `toEnd` is the source's `'end'` /  `END`. -/
inductive Route where
  | tools
  | followup
  | orchestrator
  | toEnd
deriving DecidableEq

/-- `routeAfterOrchestrator` from `src/graph/index.ts`. -/
def routeAfterOrchestrator (state : GraphState) : Route :=
  if state.isEmergency then .toEnd
  else
    let pendingToolCalls : Bool :=
      match state.messages.getLast? with
      | some m => m.type == .ai && !m.tool_calls.isEmpty
      | none => false
    if pendingToolCalls then .tools
    else if jsTruthy state.responsePayload && state.responseMessageType != .text
      then .followup
    else .toEnd

/-- `routeAfterTools` from `src/graph/index.ts`. -/
def routeAfterTools (state : GraphState) : Route :=
  match state.messages.getLast? with
  | some m => if m.type = .tool then .orchestrator else .toEnd
  | none => .toEnd

/-! ## Tool executor node (`src/graph/nodes/tools.ts`) -/

/-- A registered tool: `run` is `tool.invoke` (`.error` models a throw);
`time` is the handler's latency in ms, which the sequential executor never
consults. -/
structure ToolHandler where
  run : String → Except String String
  time : String → Nat

/-- External collaborators of `toolExecutorNode`: the `toolsByName` registry
from `src/tools/definitions.ts` and the platform `JSON.parse`. -/
structure ToolsEnv where
  toolsByName : String → Option ToolHandler
  jsonParse : String → Option Json

/-- One iteration of the executor's loop: unknown tool names and throwing
handlers each produce a descriptive tool message tagged with the call's id,
instead of a thrown failure. -/
def runToolCall (env : ToolsEnv) (toolCall : ToolCall) : Msg :=
  match env.toolsByName toolCall.name with
  | none =>
      { type := .tool
        content := "Tool " ++ toolCall.name ++ " not found"
        tool_call_id := some toolCall.id }
  | some tool =>
      match tool.run toolCall.args with
      | .ok result =>
          { type := .tool, content := result, tool_call_id := some toolCall.id }
      | .error e =>
          { type := .tool
            content := "Error executing tool: " ++ e
            tool_call_id := some toolCall.id }

/-- Reassigns every registered handler's latency, leaving its behaviour
untouched: the executor awaits calls sequentially, so its output must not
depend on these times. -/
def setHandlerTimes (env : ToolsEnv) (t : String → String → Nat) : ToolsEnv :=
  { env with
    toolsByName := fun n => (env.toolsByName n).map (fun h => { h with time := t n }) }

/-- `toolExecutorNode` from `src/graph/nodes/tools.ts`: runs every call of
the last AI message in request order, then parses the last produced tool
message; only a successfully validated result contributes state updates
beyond the appended messages. -/
def toolExecutorNode (env : ToolsEnv) (state : GraphState) : StateUpdate :=
  match state.messages.getLast? with
  | none => {}
  | some aiMessage =>
    if aiMessage.type = .ai then
      if aiMessage.tool_calls.isEmpty then {}
      else
        let toolResults := aiMessage.tool_calls.map (runToolCall env)
        match toolResults.getLast? with
        | some lastToolMessage =>
            match parseToolResult env.jsonParse lastToolMessage.content with
            | some toolResult =>
                { extractStateUpdates toolResult with messages := toolResults }
            | none => { messages := toolResults }
        | none => { messages := toolResults }
    else {}

/-! ## Circuit breaker (`src/services/emergency.ts`,
`src/services/circuitBreaker.ts`) -/

namespace EmergencyService

/-- Possible outcomes of the classifier call inside `checkEmergency` of
`src/services/emergency.ts`: the model call or `JSON.parse` throws, or the
reply parses to a value whose `isEmergency` field is the given one (`none`
when absent). -/
inductive ClassifierOutcome where
  | throws
  | json (isEmergencyField : Option Json)

/-- `checkEmergency` from `src/services/emergency.ts`: a parsed reply is an
emergency exactly when `isEmergency === true`; a thrown error is caught and
returns `false` — the function fails OPEN, as its own comment states. -/
def checkEmergency : ClassifierOutcome → Bool
  | .throws => false
  | .json f => f == some (Json.bool true)

end EmergencyService

/-- The slice of `ChatResponse` the circuit breaker produces (it fills only
`message` and `isEmergency`). -/
structure ChatResponse where
  message : String
  isEmergency : Bool
deriving DecidableEq

/-- `CircuitBreakerConfig` from `src/types/index.ts`; the default is
`{ emergencyTimeoutMs: 2000 }`. -/
structure CircuitBreakerConfig where
  emergencyTimeoutMs : Nat
deriving DecidableEq

/-- `EMERGENCY_RESPONSE` from `src/services/circuitBreaker.ts`. -/
def EMERGENCY_RESPONSE : ChatResponse :=
  { message :=
      "I\x27m concerned about what you\x27re sharing. Your safety matters most right now.\n\nIf you\x27re in immediate danger, please reach out:\n• Netherlands: 113 (Zelfmoordpreventie)\n• Belgium: 1813\n• UK: 116 123 (Samaritans)\n• International: Your local emergency services\n\nAre you safe right now? Is someone with you?"
    isEmergency := true }

/-- The `source` discriminant of the `RaceResult` union in
`src/services/circuitBreaker.ts`. -/
inductive RaceSource where
  | emergency
  | orchestrator
  | timeout
deriving DecidableEq

/-- The `RaceResult` tagged union, flattened into one record: `isEmergency`
is meaningful when `source` is `emergency`, `message` when it is
`orchestrator` (defaults mirror fields the corresponding variant lacks). -/
structure RaceResult where
  source : RaceSource
  isEmergency : Bool := false
  message : String := ""
deriving DecidableEq

/-- A turn's asynchronous environment for the breaker: the classifier
outcome and settle time of `checkEmergency(lastUserMessage)`, and the value
and settle time of `orchestratorFn()` (both promises are assumed to
settle; `checkEmergency` always resolves a boolean since it catches
internally). Times are in ms from the turn's start. -/
structure Schedule where
  classifier : EmergencyService.ClassifierOutcome
  tEmergency : Nat
  orchMessage : String
  tOrchestrator : Nat

/-- The `Promise.race` of the two tagged promises and the deadline timer:
the earliest settler wins; at equal times the earlier entry of the race
array (`taggedEmergency`, then `taggedOrchestrator`, then the timer) wins. -/
def firstSettler (s : Schedule) (timeoutMs : Nat) : RaceResult :=
  if s.tEmergency ≤ s.tOrchestrator ∧ s.tEmergency ≤ timeoutMs then
    { source := .emergency
      isEmergency := EmergencyService.checkEmergency s.classifier }
  else if s.tOrchestrator ≤ timeoutMs then
    { source := .orchestrator, message := s.orchMessage }
  else
    { source := .timeout }

/-- The grace-period race of CASE 3: starting when the orchestrator settled
(`tOrchestrator`), `emergencyPromise` races `timeout(500, false)`; the
classifier result is used only if it settles within the 500 ms window. -/
def graceWindowEmergency (s : Schedule) : Bool :=
  if s.tEmergency ≤ s.tOrchestrator + 500 then
    EmergencyService.checkEmergency s.classifier
  else false

/-- The four sequential branch guards of `withEmergencyCircuitBreaker`, in
source order. -/
def breakerGuards (firstResult : RaceResult) : List Bool :=
  [decide (firstResult.source = .emergency) && firstResult.isEmergency,
   decide (firstResult.source = .emergency) && !firstResult.isEmergency,
   decide (firstResult.source = .orchestrator),
   decide (firstResult.source = .timeout)]

/-- The branch dispatch of `withEmergencyCircuitBreaker` on the race winner;
`none` is the trailing `throw new Error('Unexpected circuit breaker
state')`. CASE 2 and CASE 4 await `orchestratorPromise` and return its
value; CASE 4 additionally attaches the fire-and-forget late-detection
continuation (modelled by `lateDetectionSignal`), which does not touch the
returned value. -/
def breakerBranches (s : Schedule) (firstResult : RaceResult) :
    Option ChatResponse :=
  if firstResult.source = .emergency ∧ firstResult.isEmergency then
    some EMERGENCY_RESPONSE
  else if firstResult.source = .emergency ∧ ¬firstResult.isEmergency then
    some { message := s.orchMessage, isEmergency := false }
  else if firstResult.source = .orchestrator then
    if graceWindowEmergency s then some EMERGENCY_RESPONSE
    else some { message := firstResult.message, isEmergency := false }
  else if firstResult.source = .timeout then
    some { message := s.orchMessage, isEmergency := false }
  else none

/-- `withEmergencyCircuitBreaker` from `src/services/circuitBreaker.ts`,
as a function of the turn's schedule. -/
def withEmergencyCircuitBreaker (s : Schedule) (config : CircuitBreakerConfig) :
    Option ChatResponse :=
  breakerBranches s (firstSettler s config.emergencyTimeoutMs)

/-- Whether the fire-and-forget continuation of CASE 4 eventually logs a
late detection: the deadline won the race and the classifier later resolves
positive. -/
def lateDetectionSignal (s : Schedule) (config : CircuitBreakerConfig) : Bool :=
  decide ((firstSettler s config.emergencyTimeoutMs).source = .timeout)
    && EmergencyService.checkEmergency s.classifier

/-! ## Theorems -/

/-- Normal form of the breaker: the three-way race reduces to a nested case
split on the settle times. -/
theorem withEmergencyCircuitBreaker_eq (s : Schedule) (config : CircuitBreakerConfig) :
    withEmergencyCircuitBreaker s config =
      if s.tEmergency ≤ s.tOrchestrator ∧ s.tEmergency ≤ config.emergencyTimeoutMs then
        (if EmergencyService.checkEmergency s.classifier then some EMERGENCY_RESPONSE
         else some { message := s.orchMessage, isEmergency := false })
      else if s.tOrchestrator ≤ config.emergencyTimeoutMs then
        (if graceWindowEmergency s then some EMERGENCY_RESPONSE
         else some { message := s.orchMessage, isEmergency := false })
      else some { message := s.orchMessage, isEmergency := false } := by
  unfold withEmergencyCircuitBreaker firstSettler breakerBranches
  split_ifs <;> simp_all

/-- C1, counterexample: a turn where the classifier call throws, settling at
0 ms, and the orchestrator resolves "hello" at 1 ms. The classification is
treated as negative (`checkEmergency` returns `false` from its catch), and
the breaker returns the normal response, not the fixed safety result — the
claim's fail-closed outcome is violated. -/
theorem c1_fail_closed_counterexample :
    EmergencyService.checkEmergency .throws = false ∧
    withEmergencyCircuitBreaker ⟨.throws, 0, "hello", 1⟩ ⟨2000⟩ =
      some { message := "hello", isEmergency := false } ∧
    (some { message := "hello", isEmergency := false } : Option ChatResponse) ≠
      some EMERGENCY_RESPONSE := by
  refine ⟨rfl, rfl, ?_⟩
  decide

/-- C1, amended: if the safety classifier call used by the circuit breaker
fails (throws or produces malformed output), the classification is treated
as negative (safe) — the code fails OPEN — and the turn's outcome is the
normal response, never the safety result. -/
theorem c1_fail_open_amended (s : Schedule) (config : CircuitBreakerConfig)
    (hthrow : s.classifier = .throws) :
    EmergencyService.checkEmergency s.classifier = false ∧
    withEmergencyCircuitBreaker s config =
      some { message := s.orchMessage, isEmergency := false } := by
  have hc : EmergencyService.checkEmergency s.classifier = false := by
    rw [hthrow]; rfl
  refine ⟨hc, ?_⟩
  rw [withEmergencyCircuitBreaker_eq]
  have hg : graceWindowEmergency s = false := by
    unfold graceWindowEmergency
    split_ifs <;> simp [hc]
  split_ifs <;> simp_all

/-- C1, witness for the amended theorem at a concrete schedule. -/
theorem c1_fail_open_witness :
    EmergencyService.checkEmergency .throws = false ∧
    withEmergencyCircuitBreaker ⟨.throws, 5, "hi", 7⟩ ⟨2000⟩ =
      some { message := "hi", isEmergency := false } :=
  c1_fail_open_amended ⟨.throws, 5, "hi", 7⟩ ⟨2000⟩ rfl

/-- C2: if the classification settles strictly before the deadline and
strictly before the response computation and is positive, the breaker
returns exactly the fixed safety response; the response computation's
result never appears (the output is the same whatever the orchestrator
resolves with). -/
theorem c2_emergency_first_trips (s : Schedule) (config : CircuitBreakerConfig)
    (hO : s.tEmergency < s.tOrchestrator)
    (hD : s.tEmergency < config.emergencyTimeoutMs)
    (hpos : EmergencyService.checkEmergency s.classifier = true) :
    withEmergencyCircuitBreaker s config = some EMERGENCY_RESPONSE ∧
    ∀ msg : String,
      withEmergencyCircuitBreaker { s with orchMessage := msg } config =
        some EMERGENCY_RESPONSE := by
  constructor
  · rw [withEmergencyCircuitBreaker_eq]
    simp [hO.le, hD.le, hpos]
  · intro msg
    rw [withEmergencyCircuitBreaker_eq]
    simp only [Schedule.mk.injEq]
    simp [hO.le, hD.le, hpos]

/-- C2, witness: classifier positive at 100 ms, orchestrator at 300 ms,
deadline 2000 ms. -/
theorem c2_emergency_first_witness :
    withEmergencyCircuitBreaker ⟨.json (some (.bool true)), 100, "answer", 300⟩ ⟨2000⟩ =
      some EMERGENCY_RESPONSE :=
  (c2_emergency_first_trips ⟨.json (some (.bool true)), 100, "answer", 300⟩ ⟨2000⟩
    (by decide) (by decide) rfl).1

/-- C3: when the response computation settles first (before the classifier
and within the deadline), the classifier gets a 500 ms grace window from
that moment: a positive resolution inside the window discards the response
and returns the safety result, otherwise the response is returned
unmodified. -/
theorem c3_grace_window (s : Schedule) (config : CircuitBreakerConfig)
    (hE : s.tOrchestrator < s.tEmergency)
    (hD : s.tOrchestrator ≤ config.emergencyTimeoutMs) :
    ((s.tEmergency ≤ s.tOrchestrator + 500 ∧
        EmergencyService.checkEmergency s.classifier = true) →
      withEmergencyCircuitBreaker s config = some EMERGENCY_RESPONSE) ∧
    ((s.tOrchestrator + 500 < s.tEmergency ∨
        EmergencyService.checkEmergency s.classifier = false) →
      withEmergencyCircuitBreaker s config =
        some { message := s.orchMessage, isEmergency := false }) := by
  have hnotE : ¬ (s.tEmergency ≤ s.tOrchestrator ∧
      s.tEmergency ≤ config.emergencyTimeoutMs) := by
    rintro ⟨h, -⟩
    exact absurd (lt_of_lt_of_le hE h) (lt_irrefl _)
  constructor
  · rintro ⟨hwin, hpos⟩
    rw [withEmergencyCircuitBreaker_eq]
    have hg : graceWindowEmergency s = true := by
      unfold graceWindowEmergency
      rw [if_pos hwin, hpos]
    simp [hnotE, hD, hg]
  · intro hmiss
    rw [withEmergencyCircuitBreaker_eq]
    have hg : graceWindowEmergency s = false := by
      unfold graceWindowEmergency
      rcases hmiss with hlate | hneg
      · rw [if_neg (by omega)]
      · split_ifs <;> simp [hneg]
    simp [hnotE, hD, hg]

/-- C3, witness: orchestrator at 1000 ms, classifier positive at 1200 ms
(inside the grace window), deadline 2000 ms — safety result wins. -/
theorem c3_grace_window_witness :
    withEmergencyCircuitBreaker ⟨.json (some (.bool true)), 1200, "text", 1000⟩ ⟨2000⟩ =
      some EMERGENCY_RESPONSE :=
  (c3_grace_window ⟨.json (some (.bool true)), 1200, "text", 1000⟩ ⟨2000⟩
    (by decide) (by decide)).1 ⟨by decide, rfl⟩

/-- C4: when the deadline fires first (both the classifier and the response
computation are slower), the breaker awaits and returns the response
computation's eventual result; the classifier outcome only drives the
background late-detection signal and never changes the returned value. -/
theorem c4_deadline_first (s : Schedule) (config : CircuitBreakerConfig)
    (hE : config.emergencyTimeoutMs < s.tEmergency)
    (hO : config.emergencyTimeoutMs < s.tOrchestrator) :
    withEmergencyCircuitBreaker s config =
      some { message := s.orchMessage, isEmergency := false } ∧
    lateDetectionSignal s config = EmergencyService.checkEmergency s.classifier := by
  have h1 : ¬ (s.tEmergency ≤ s.tOrchestrator ∧
      s.tEmergency ≤ config.emergencyTimeoutMs) := by omega
  have h2 : ¬ s.tOrchestrator ≤ config.emergencyTimeoutMs := by omega
  constructor
  · rw [withEmergencyCircuitBreaker_eq]
    simp [h1, h2]
  · unfold lateDetectionSignal firstSettler
    simp [h1, h2]

/-- C4, witness: classifier (positive) at 3000 ms, orchestrator at 2500 ms,
deadline 2000 ms — the orchestrator's answer is returned and the late
detection fires. -/
theorem c4_deadline_first_witness :
    withEmergencyCircuitBreaker ⟨.json (some (.bool true)), 3000, "all good", 2500⟩ ⟨2000⟩ =
      some { message := "all good", isEmergency := false } ∧
    lateDetectionSignal ⟨.json (some (.bool true)), 3000, "all good", 2500⟩ ⟨2000⟩ =
      EmergencyService.checkEmergency (.json (some (.bool true))) :=
  c4_deadline_first ⟨.json (some (.bool true)), 3000, "all good", 2500⟩ ⟨2000⟩
    (by decide) (by decide)

/-- C10: every value of the race union satisfies exactly one of the four
sequential branch guards, so the trailing `throw new Error('Unexpected
circuit breaker state')` is unreachable and the breaker always produces a
`ChatResponse`. -/
theorem c10_branches_total (s : Schedule) (r : RaceResult)
    (config : CircuitBreakerConfig) :
    (breakerGuards r).count true = 1 ∧
    (breakerBranches s r).isSome = true ∧
    (withEmergencyCircuitBreaker s config).isSome = true := by
  refine ⟨?_, ?_, ?_⟩
  · rcases r with ⟨src, isE, msg⟩
    cases src <;> cases isE <;> rfl
  · rcases r with ⟨src, isE, msg⟩
    cases src <;> cases isE <;>
      simp [breakerBranches, graceWindowEmergency] <;> split_ifs <;> simp
  · rw [withEmergencyCircuitBreaker_eq]
    split_ifs <;> simp

/-- Every reachable branch of the executor's loop body tags its tool
message with the call's id. -/
theorem runToolCall_tool_call_id (env : ToolsEnv) (tc : ToolCall) :
    (runToolCall env tc).tool_call_id = some tc.id := by
  unfold runToolCall
  rcases h : env.toolsByName tc.name with _ | tool
  · simp only [h]
  · rcases hr : tool.run tc.args with r | e <;> simp only [h, hr]

/-- Every reachable branch of the executor's loop body produces a tool
message. -/
theorem runToolCall_type (env : ToolsEnv) (tc : ToolCall) :
    (runToolCall env tc).type = .tool := by
  unfold runToolCall
  rcases h : env.toolsByName tc.name with _ | tool
  · simp only [h]
  · rcases hr : tool.run tc.args with r | e <;> simp only [h, hr]

/-- Whatever the parse outcome, the executor appends exactly the batch's
tool messages, in loop order. -/
theorem toolExecutorNode_messages (env : ToolsEnv) (state : GraphState)
    (aiMessage : Msg)
    (hlast : state.messages.getLast? = some aiMessage)
    (hai : aiMessage.type = .ai) :
    (toolExecutorNode env state).messages =
      aiMessage.tool_calls.map (runToolCall env) := by
  simp only [toolExecutorNode, hlast]
  rw [if_pos hai]
  by_cases hemp : aiMessage.tool_calls.isEmpty
  · rw [if_pos hemp, List.isEmpty_iff.mp hemp]
    rfl
  · rw [if_neg hemp]
    rcases hgl : (aiMessage.tool_calls.map (runToolCall env)).getLast? with _ | lm
    · simp only [hgl]
    · simp only [hgl]
      rcases hp : parseToolResult env.jsonParse lm.content with _ | tr <;>
        simp only [hp]

/-- The executor reads its environment only through `runToolCall` and
`jsonParse`. -/
theorem toolExecutorNode_congr (env env' : ToolsEnv) (state : GraphState)
    (hrun : runToolCall env' = runToolCall env)
    (hparse : env'.jsonParse = env.jsonParse) :
    toolExecutorNode env' state = toolExecutorNode env state := by
  unfold toolExecutorNode
  rw [hrun, hparse]

/-- C7: re-validating an already-valid payload against its registered
schema always succeeds (validation is a pure function of the payload), and
a payload missing a required top-level field of its schema always fails
validation, whatever its other fields contain. -/
theorem c7_validation (messageType : MessageType) (payload : Json) (k : String)
    (hk : k ∈ requiredTopLevelFields messageType)
    (hmissing : jsonGet payload k = none) :
    (∀ (mt : MessageType) (p : Json),
        validatePayload mt p = true → validatePayload mt p = true) ∧
    validatePayload messageType payload = false := by
  refine ⟨fun _ _ h => h, ?_⟩
  have hreq : ∀ c, reqField payload k c = false := by
    intro c
    unfold reqField
    rw [hmissing]
  cases messageType with
  | text => simp [requiredTopLevelFields] at hk
  | emergency =>
      simp only [requiredTopLevelFields, List.mem_cons, List.not_mem_nil,
        or_false] at hk
      rcases hk with rfl | rfl <;>
        simp [validatePayload, PayloadSchemas, emergencyPayloadCheck, hreq]
  | expert_profiles =>
      simp only [requiredTopLevelFields, List.mem_cons, List.not_mem_nil,
        or_false] at hk
      rcases hk with rfl
      simp [validatePayload, PayloadSchemas, expertProfilesPayloadCheck, hreq]
  | expert_availability =>
      simp only [requiredTopLevelFields, List.mem_cons, List.not_mem_nil,
        or_false] at hk
      rcases hk with rfl | rfl | rfl <;>
        simp [validatePayload, PayloadSchemas, expertAvailabilityPayloadCheck, hreq]
  | session_booked =>
      simp only [requiredTopLevelFields, List.mem_cons, List.not_mem_nil,
        or_false] at hk
      rcases hk with rfl | rfl <;>
        simp [validatePayload, PayloadSchemas, sessionBookedPayloadCheck, hreq]
  | content_recommendations =>
      simp only [requiredTopLevelFields, List.mem_cons, List.not_mem_nil,
        or_false] at hk
      rcases hk with rfl | rfl <;>
        simp [validatePayload, PayloadSchemas, contentRecommendationsPayloadCheck,
          hreq]

/-- C7, witness: an emergency payload with its required `severity` field
missing fails validation even though its `resources` field is correct. -/
theorem c7_validation_witness :
    (∀ (mt : MessageType) (p : Json),
        validatePayload mt p = true → validatePayload mt p = true) ∧
    validatePayload .emergency (.obj [("resources", .arr [])]) = false :=
  c7_validation .emergency (.obj [("resources", .arr [])]) "severity"
    (by decide) rfl

/-- C5: a turn whose incoming message is a new (non-empty) user message and
whose inline safety check is positive produces exactly the fixed emergency
update — emergency flag set, the fixed safety message appended,
`responseMessageType` set to `emergency` — and routes to `End`, entering
neither the tools node nor the follow-up node, regardless of any pending
tool calls. -/
theorem c5_emergency_short_circuit (env : OrchestratorNode.Env)
    (state : GraphState) (m : Msg)
    (hlast : state.messages.getLast? = some m)
    (hhuman : m.type = .human)
    (hcontent : m.content ≠ "")
    (hpos : OrchestratorNode.checkEmergency env.classifierOutcome = true) :
    orchestratorNode env state =
      { messages := [{ type := .ai, content := EMERGENCY_MESSAGE }]
        isEmergency := some true
        responseMessage := some EMERGENCY_MESSAGE
        responseMessageType := some .emergency
        responsePayload := some CRISIS_RESOURCES } ∧
    routeAfterOrchestrator (applyUpdate state (orchestratorNode env state)) =
      .toEnd := by
  have hnode : orchestratorNode env state =
      { messages := [{ type := .ai, content := EMERGENCY_MESSAGE }]
        isEmergency := some true
        responseMessage := some EMERGENCY_MESSAGE
        responseMessageType := some .emergency
        responsePayload := some CRISIS_RESOURCES } := by
    simp only [orchestratorNode, hlast]
    rw [if_pos hhuman, if_pos ⟨hcontent, hpos⟩]
  refine ⟨hnode, ?_⟩
  rw [hnode]
  simp [routeAfterOrchestrator, applyUpdate]

/-- C5, witness: one human message "help me" with a positive classifier
verdict. -/
theorem c5_emergency_short_circuit_witness :
    orchestratorNode
        ⟨.json (some (.bool true)), .ok { type := .ai, content := "x" }⟩
        { messages := [{ type := .human, content := "help me" }] } =
      { messages := [{ type := .ai, content := EMERGENCY_MESSAGE }]
        isEmergency := some true
        responseMessage := some EMERGENCY_MESSAGE
        responseMessageType := some .emergency
        responsePayload := some CRISIS_RESOURCES } ∧
    routeAfterOrchestrator
        (applyUpdate { messages := [{ type := .human, content := "help me" }] }
          (orchestratorNode
            ⟨.json (some (.bool true)), .ok { type := .ai, content := "x" }⟩
            { messages := [{ type := .human, content := "help me" }] })) =
      .toEnd :=
  c5_emergency_short_circuit
    ⟨.json (some (.bool true)), .ok { type := .ai, content := "x" }⟩
    { messages := [{ type := .human, content := "help me" }] }
    { type := .human, content := "help me" }
    rfl rfl (by decide) rfl

/-- C6: when the last produced tool result fails `parseToolResult` (content
does not parse, or structure or payload validation fails), the executor's
update carries only the appended tool messages; after the reducers run,
`responseMessage`, `responseMessageType` and `responsePayload` keep their
prior values. -/
theorem c6_invalid_payload_frame (env : ToolsEnv) (state : GraphState)
    (aiMessage : Msg)
    (hlast : state.messages.getLast? = some aiMessage)
    (hai : aiMessage.type = .ai)
    (hcalls : aiMessage.tool_calls ≠ [])
    (hparse : ∀ lm,
        (aiMessage.tool_calls.map (runToolCall env)).getLast? = some lm →
        parseToolResult env.jsonParse lm.content = none) :
    toolExecutorNode env state =
      { messages := aiMessage.tool_calls.map (runToolCall env) } ∧
    (applyUpdate state (toolExecutorNode env state)).responseMessage =
      state.responseMessage ∧
    (applyUpdate state (toolExecutorNode env state)).responseMessageType =
      state.responseMessageType ∧
    (applyUpdate state (toolExecutorNode env state)).responsePayload =
      state.responsePayload ∧
    (applyUpdate state (toolExecutorNode env state)).messages =
      state.messages ++ aiMessage.tool_calls.map (runToolCall env) := by
  have hne : aiMessage.tool_calls.map (runToolCall env) ≠ [] := by
    simpa [List.map_eq_nil_iff] using hcalls
  obtain ⟨lm, hlm⟩ :
      ∃ lm, (aiMessage.tool_calls.map (runToolCall env)).getLast? = some lm :=
    Option.isSome_iff_exists.mp (List.getLast?_isSome.mpr hne)
  have hnode : toolExecutorNode env state =
      { messages := aiMessage.tool_calls.map (runToolCall env) } := by
    simp only [toolExecutorNode, hlast]
    rw [if_pos hai, if_neg (by simp [List.isEmpty_iff, hcalls])]
    simp only [hlm, hparse lm hlm]
  refine ⟨hnode, ?_, ?_, ?_, ?_⟩ <;> rw [hnode] <;> simp [applyUpdate]

/-- C6, witness: a single call to an unregistered tool whose result message
does not parse; the previously set response fields survive unchanged. -/
theorem c6_invalid_payload_frame_witness :
    toolExecutorNode ⟨fun _ => none, fun _ => none⟩
        { messages := [{ type := .ai, content := "",
                         tool_calls := [⟨"1", "fetch_x", "a"⟩] }]
          responseMessage := some "prev"
          responseMessageType := .content_recommendations
          responsePayload := .obj [("items", .arr []), ("topic", .str "t")] } =
      { messages := [{ type := .tool, content := "Tool fetch_x not found",
                       tool_call_id := some "1" }] } ∧
    (applyUpdate
        { messages := [{ type := .ai, content := "",
                         tool_calls := [⟨"1", "fetch_x", "a"⟩] }]
          responseMessage := some "prev"
          responseMessageType := .content_recommendations
          responsePayload := .obj [("items", .arr []), ("topic", .str "t")] }
        (toolExecutorNode ⟨fun _ => none, fun _ => none⟩
          { messages := [{ type := .ai, content := "",
                           tool_calls := [⟨"1", "fetch_x", "a"⟩] }]
            responseMessage := some "prev"
            responseMessageType := .content_recommendations
            responsePayload := .obj [("items", .arr []), ("topic", .str "t")] })).responseMessage =
      some "prev" ∧
    (applyUpdate
        { messages := [{ type := .ai, content := "",
                         tool_calls := [⟨"1", "fetch_x", "a"⟩] }]
          responseMessage := some "prev"
          responseMessageType := .content_recommendations
          responsePayload := .obj [("items", .arr []), ("topic", .str "t")] }
        (toolExecutorNode ⟨fun _ => none, fun _ => none⟩
          { messages := [{ type := .ai, content := "",
                           tool_calls := [⟨"1", "fetch_x", "a"⟩] }]
            responseMessage := some "prev"
            responseMessageType := .content_recommendations
            responsePayload := .obj [("items", .arr []), ("topic", .str "t")] })).responseMessageType =
      .content_recommendations ∧
    (applyUpdate
        { messages := [{ type := .ai, content := "",
                         tool_calls := [⟨"1", "fetch_x", "a"⟩] }]
          responseMessage := some "prev"
          responseMessageType := .content_recommendations
          responsePayload := .obj [("items", .arr []), ("topic", .str "t")] }
        (toolExecutorNode ⟨fun _ => none, fun _ => none⟩
          { messages := [{ type := .ai, content := "",
                           tool_calls := [⟨"1", "fetch_x", "a"⟩] }]
            responseMessage := some "prev"
            responseMessageType := .content_recommendations
            responsePayload := .obj [("items", .arr []), ("topic", .str "t")] })).responsePayload =
      .obj [("items", .arr []), ("topic", .str "t")] := by
  have h := c6_invalid_payload_frame ⟨fun _ => none, fun _ => none⟩
    { messages := [{ type := .ai, content := "",
                     tool_calls := [⟨"1", "fetch_x", "a"⟩] }]
      responseMessage := some "prev"
      responseMessageType := .content_recommendations
      responsePayload := .obj [("items", .arr []), ("topic", .str "t")] }
    { type := .ai, content := "", tool_calls := [⟨"1", "fetch_x", "a"⟩] }
    rfl rfl (by decide) (fun _ _ => rfl)
  exact ⟨h.1, h.2.1, h.2.2.1, h.2.2.2.1⟩

/-- C8: tool-result messages are appended in exactly the order of the
requested calls (the i-th appended message is tagged with the i-th call's
id), and the executor's output is invariant under any reassignment of
handler latencies — a handler finishing earlier or later cannot reorder the
results. -/
theorem c8_order_preserved (env : ToolsEnv) (state : GraphState)
    (aiMessage : Msg)
    (hlast : state.messages.getLast? = some aiMessage)
    (hai : aiMessage.type = .ai) :
    (toolExecutorNode env state).messages.map Msg.tool_call_id =
      aiMessage.tool_calls.map (fun tc => some tc.id) ∧
    ∀ t, toolExecutorNode (setHandlerTimes env t) state =
      toolExecutorNode env state := by
  constructor
  · rw [toolExecutorNode_messages env state aiMessage hlast hai, List.map_map]
    exact List.map_congr_left fun tc _ => runToolCall_tool_call_id env tc
  · intro t
    refine toolExecutorNode_congr env (setHandlerTimes env t) state ?_ rfl
    funext tc
    unfold runToolCall setHandlerTimes
    rcases h : env.toolsByName tc.name with _ | tool
    · simp [h]
    · rcases hr : tool.run tc.args with r | e <;> simp [h, hr]

/-- C8, witness: three calls `[A, B, C]` whose handlers get latencies
`[300, 200, 100]` (C finishes first); the appended ids still read
`[A, B, C]`. -/
theorem c8_order_preserved_witness :
    (toolExecutorNode
        ⟨fun _ => some ⟨fun _ => .ok "r", fun _ => 0⟩, fun _ => none⟩
        { messages := [{ type := .ai, content := "",
                         tool_calls := [⟨"A", "t1", "a"⟩, ⟨"B", "t2", "b"⟩,
                                        ⟨"C", "t3", "c"⟩] }] }).messages.map
        Msg.tool_call_id =
      [some "A", some "B", some "C"] ∧
    toolExecutorNode
        (setHandlerTimes
          ⟨fun _ => some ⟨fun _ => .ok "r", fun _ => 0⟩, fun _ => none⟩
          (fun n _ => if n == "t1" then 300 else if n == "t2" then 200 else 100))
        { messages := [{ type := .ai, content := "",
                         tool_calls := [⟨"A", "t1", "a"⟩, ⟨"B", "t2", "b"⟩,
                                        ⟨"C", "t3", "c"⟩] }] } =
      toolExecutorNode
        ⟨fun _ => some ⟨fun _ => .ok "r", fun _ => 0⟩, fun _ => none⟩
        { messages := [{ type := .ai, content := "",
                         tool_calls := [⟨"A", "t1", "a"⟩, ⟨"B", "t2", "b"⟩,
                                        ⟨"C", "t3", "c"⟩] }] } := by
  have h := c8_order_preserved
    ⟨fun _ => some ⟨fun _ => .ok "r", fun _ => 0⟩, fun _ => none⟩
    { messages := [{ type := .ai, content := "",
                     tool_calls := [⟨"A", "t1", "a"⟩, ⟨"B", "t2", "b"⟩,
                                    ⟨"C", "t3", "c"⟩] }] }
    { type := .ai, content := "",
      tool_calls := [⟨"A", "t1", "a"⟩, ⟨"B", "t2", "b"⟩, ⟨"C", "t3", "c"⟩] }
    rfl rfl
  exact ⟨h.1, h.2 _⟩

/-- C9: a call to an unregistered tool yields a tool message carrying an
explicit not-found indication, a throwing handler is converted to an error
message tagged with that call's id, every sibling call still contributes
its own result (one message per call), and after the batch the router sends
the turn back to `Orchestrate`; the executor itself is a total function and
never throws. -/
theorem c9_batch_error_handling (env : ToolsEnv) (state : GraphState)
    (aiMessage : Msg) (tc : ToolCall)
    (hlast : state.messages.getLast? = some aiMessage)
    (hai : aiMessage.type = .ai)
    (hmem : tc ∈ aiMessage.tool_calls) :
    (env.toolsByName tc.name = none →
      runToolCall env tc =
        { type := .tool, content := "Tool " ++ tc.name ++ " not found",
          tool_call_id := some tc.id }) ∧
    (∀ tool e, env.toolsByName tc.name = some tool →
      tool.run tc.args = .error e →
      runToolCall env tc =
        { type := .tool, content := "Error executing tool: " ++ e,
          tool_call_id := some tc.id }) ∧
    runToolCall env tc ∈ (toolExecutorNode env state).messages ∧
    (toolExecutorNode env state).messages.length =
      aiMessage.tool_calls.length ∧
    routeAfterTools (applyUpdate state (toolExecutorNode env state)) =
      .orchestrator := by
  have hmsgs := toolExecutorNode_messages env state aiMessage hlast hai
  have hne : aiMessage.tool_calls.map (runToolCall env) ≠ [] := by
    simpa [List.map_eq_nil_iff] using List.ne_nil_of_mem hmem
  refine ⟨?_, ?_, ?_, ?_, ?_⟩
  · intro h
    unfold runToolCall
    simp only [h]
  · intro tool e h he
    unfold runToolCall
    simp only [h, he]
  · rw [hmsgs]
    exact List.mem_map_of_mem _ hmem
  · rw [hmsgs, List.length_map]
  · obtain ⟨x, hx⟩ :
        ∃ x, (aiMessage.tool_calls.map (runToolCall env)).getLast? = some x :=
      Option.isSome_iff_exists.mp (List.getLast?_isSome.mpr hne)
    obtain ⟨tc0, -, rfl⟩ :=
      List.mem_map.mp (List.mem_of_mem_getLast? hx)
    have hlast2 :
        (applyUpdate state (toolExecutorNode env state)).messages.getLast? =
          some (runToolCall env tc0) := by
      simp only [applyUpdate, hmsgs, List.getLast?_append, hx]
      rfl
    unfold routeAfterTools
    simp [hlast2, runToolCall_type]

/-- C9, witness: a batch `[fetch_x, boom]` where `fetch_x` is unregistered
and `boom` throws; the not-found message appears, and the turn routes back
to the orchestrator. -/
theorem c9_batch_error_handling_witness :
    runToolCall
        ⟨fun n => if n == "boom" then some ⟨fun _ => .error "E", fun _ => 0⟩
                  else none,
         fun _ => none⟩
        ⟨"1", "fetch_x", "a"⟩ =
      { type := .tool, content := "Tool fetch_x not found",
        tool_call_id := some "1" } ∧
    routeAfterTools
        (applyUpdate
          { messages := [{ type := .ai, content := "",
                           tool_calls := [⟨"1", "fetch_x", "a"⟩,
                                          ⟨"2", "boom", "b"⟩] }] }
          (toolExecutorNode
            ⟨fun n => if n == "boom" then some ⟨fun _ => .error "E", fun _ => 0⟩
                      else none,
             fun _ => none⟩
            { messages := [{ type := .ai, content := "",
                             tool_calls := [⟨"1", "fetch_x", "a"⟩,
                                            ⟨"2", "boom", "b"⟩] }] })) =
      .orchestrator := by
  have h := c9_batch_error_handling
    ⟨fun n => if n == "boom" then some ⟨fun _ => .error "E", fun _ => 0⟩
              else none,
     fun _ => none⟩
    { messages := [{ type := .ai, content := "",
                     tool_calls := [⟨"1", "fetch_x", "a"⟩,
                                    ⟨"2", "boom", "b"⟩] }] }
    { type := .ai, content := "",
      tool_calls := [⟨"1", "fetch_x", "a"⟩, ⟨"2", "boom", "b"⟩] }
    ⟨"1", "fetch_x", "a"⟩
    rfl rfl (by simp)
  exact ⟨h.1 rfl, h.2.2.2.2⟩

end OpenUp
